import Mathlib

/-!
Verification development for the PDF-processing service
(`src/services/pdf-processor/main.py`).

The service's own logic is the `PDFProcessor` class: two pure helpers
(`decode_font_flags`, `color_to_hex`) and the extraction routine
`extract_pdf_content`.  The PDF decoder library (`fitz` / PyMuPDF) is an
external opaque capability; following the repository's own scoping, it is
embedded as the *outcomes* it hands back to the service: a document value
carrying, per page, the values (or exceptions) returned by `page.get_text()`,
`page.get_text("dict")`, `page.get_images()` and `fitz.Pixmap(...)`.
Python exceptions are embedded as `Except String`; Python dict lookups with
`.get(key, default)` as `Option` fields read with `Option.getD`.

Coordinate-like values (bounding boxes, sizes, matrices) are floats in the
source; the service only copies them between records and never computes with
them, so they are embedded as integers.
-/

set_option maxRecDepth 8000

namespace PDFProc

/-- Result of `decode_font_flags` (main.py lines 39-45): five booleans. -/
structure FontProps where
  superscript : Bool
  italic : Bool
  serifed : Bool
  monospaced : Bool
  bold : Bool
deriving Repr, DecidableEq

/-- main.py lines 28-45: `decode_font_flags(flags)` tests the five lowest
bits of the (Python, i.e. unbounded two's-complement) integer `flags`.
Python's `x & y` on int is `Int.land`; `bool(z)` on int is `z != 0`. -/
def decode_font_flags (flags : Int) : FontProps :=
  { superscript := Int.land flags (2 ^ 0) != 0
    italic := Int.land flags (2 ^ 1) != 0
    serifed := Int.land flags (2 ^ 2) != 0
    monospaced := Int.land flags (2 ^ 3) != 0
    bold := Int.land flags (2 ^ 4) != 0 }

/-- Python's `f"{n:02x}"` for `0 ≤ n < 256` (every call site in the source
masks its argument with `& 255` first): two lowercase hex digits. -/
def format02x (n : Nat) : String :=
  String.mk [Nat.digitChar (n / 16), Nat.digitChar (n % 16)]

/-- main.py lines 47-64: `color_to_hex(color)`.  The source's color values
are non-negative Python ints. -/
def color_to_hex (color : Nat) : String :=
  if color = 0 then "#000000"
  else
    let r := (color >>> 16) &&& 255
    let g := (color >>> 8) &&& 255
    let b := color &&& 255
    "#" ++ format02x r ++ format02x g ++ format02x b

/-- Python's `str.strip()` (no argument): remove leading and trailing
whitespace characters. -/
def py_strip (s : String) : String :=
  String.mk (((s.data.dropWhile Char.isWhitespace).reverse.dropWhile
    Char.isWhitespace).reverse)

/-! ## Decoder-side input model

What `fitz` hands back to the service, per document.  Dict entries read with
`span.get(key, default)` are `Option` fields; calls that can raise a Python
exception are `Except String` fields. -/

/-- One span dict of `page.get_text("dict")` (read at main.py lines 112-125). -/
structure RawSpan where
  bbox : Option (List Int)
  text : Option String
  font : Option String
  size : Option Int
  flags : Option Int
  color : Option Nat
  ascender : Option Int
  descender : Option Int
  origin : Option (List Int)

/-- One line dict (read at main.py lines 104-110). -/
structure RawLine where
  bbox : Option (List Int)
  wmode : Option Int
  dir : Option (List Int)
  spans : Option (List RawSpan)

/-- One block dict of `page.get_text("dict")["blocks"]`.  `lines` is `some`
exactly when the Python dict has a `"lines"` key (main.py line 97);
`type_` models `block.get("type")` (main.py line 156). -/
structure RawBlock where
  type_ : Option Int
  bbox : Option (List Int)
  transform : Option (List Int)
  lines : Option (List RawLine)

/-- A successfully constructed `fitz.Pixmap` (main.py lines 185-190). -/
structure Pix where
  n : Nat
  alpha : Nat
  width : Int
  height : Int
  colorspace : Option String
  tobytes_len : Nat

/-- One tuple of `page.get_images()` (read at main.py lines 163-171) together
with the outcome of `fitz.Pixmap(doc, img[0])` for its xref (line 185). -/
structure RawImage where
  xref : Int
  smask : Int
  width : Int
  height : Int
  bpc : Int
  colorspace : String
  alt : String
  name : String
  filter : String
  pixmap : Except String Pix

/-- One page of the decoded document: the values (or exceptions) returned by
`page.get_text()`, `page.get_text("dict")` (its `"blocks"` entry, `none` when
the key is absent), `page.rect` / `page.rotation`, and `page.get_images()`. -/
structure RawPage where
  getText : Except String String
  getDict : Except String (Option (List RawBlock))
  width : Int
  height : Int
  rotation : Int
  getImages : Except String (List RawImage)

/-- `doc.metadata` (read with `.get(key, "")` at main.py lines 207-213). -/
structure RawMetadata where
  title : Option String
  author : Option String
  subject : Option String
  creator : Option String
  producer : Option String
  creationDate : Option String
  modDate : Option String

/-- A successfully opened document: `doc.page_count` is `pages.length` and
`doc[i]` is `pages[i]`. -/
structure RawDoc where
  metadata : RawMetadata
  pages : List RawPage

/-! ## Output model: the dictionary built by `extract_pdf_content` -/

/-- Span record built at main.py lines 113-125. -/
structure SpanInfo where
  bbox : List Int
  text : String
  font : String
  size : Int
  flags : Int
  font_properties : FontProps
  color : Nat
  color_hex : String
  ascender : Int
  descender : Int
  origin : List Int
deriving Repr, DecidableEq

/-- Line record built at main.py lines 105-110. -/
structure LineInfo where
  bbox : List Int
  wmode : Int
  dir : List Int
  spans : List SpanInfo
deriving Repr, DecidableEq

/-- Text-block record built at main.py lines 98-102. -/
structure BlockInfo where
  bbox : List Int
  block_type : String
  lines : List LineInfo
deriving Repr, DecidableEq

/-- `page_dimensions` record (main.py lines 134-138). -/
structure PageDims where
  width : Int
  height : Int
  rotation : Int
deriving Repr, DecidableEq

/-- One entry of `pages_text` (main.py lines 140-146). -/
structure PageEntry where
  page_number : Nat
  text : String
  char_count : Nat
  page_dimensions : PageDims
  text_blocks : List BlockInfo
deriving Repr, DecidableEq

/-- One entry of `images_info` (main.py lines 160-197).  Keys that the source
adds only conditionally (`actual_width`, `actual_height`,
`colorspace_details`) are `Option` fields, `none` when the key is absent. -/
structure ImgInfo where
  page_number : Nat
  image_index : Nat
  xref : Int
  smask : Int
  width : Int
  height : Int
  bpc : Int
  colorspace : String
  alt : String
  name : String
  filter : String
  bbox : List Int
  transform : Option (List Int)
  size_bytes : Nat
  actual_width : Option Int
  actual_height : Option Int
  colorspace_details : Option String
deriving Repr, DecidableEq

/-- `metadata` record of the success result (main.py lines 206-214). -/
structure DocMetadata where
  title : String
  author : String
  subject : String
  creator : String
  producer : String
  creation_date : String
  modification_date : String
  page_count : Nat
deriving Repr, DecidableEq

/-- `content` record of the success result (main.py lines 216-221). -/
structure Content where
  full_text : String
  pages : List PageEntry
  total_chars : Nat
  images_count : Nat
deriving Repr, DecidableEq

/-- `layout_info` record of the success result (main.py lines 223-229). -/
structure LayoutInfo where
  has_positioning_data : Bool
  coordinate_system : String
  bbox_format : String
  font_flags_decoded : Bool
  color_format : String
deriving Repr, DecidableEq

/-- The dictionary returned by `extract_pdf_content`: `success` plus either
the error message (failure, main.py lines 234-237) or the four payload
fields (success, main.py lines 204-230); absent keys are `none`. -/
structure ExtractionResult where
  success : Bool
  error : Option String
  metadata : Option DocMetadata
  content : Option Content
  images : Option (List ImgInfo)
  layout_info : Option LayoutInfo
deriving Repr, DecidableEq

/-! ## The extraction pipeline (main.py lines 66-237) -/

/-- Span construction, main.py lines 112-125. -/
def buildSpanInfo (sp : RawSpan) : SpanInfo :=
  { bbox := sp.bbox.getD [0, 0, 0, 0]
    text := sp.text.getD ""
    font := sp.font.getD ""
    size := sp.size.getD 0
    flags := sp.flags.getD 0
    font_properties := decode_font_flags (sp.flags.getD 0)
    color := sp.color.getD 0
    color_hex := color_to_hex (sp.color.getD 0)
    ascender := sp.ascender.getD 0
    descender := sp.descender.getD 0
    origin := sp.origin.getD [0, 0] }

/-- Line construction, main.py lines 104-128. -/
def buildLineInfo (ln : RawLine) : LineInfo :=
  { bbox := ln.bbox.getD [0, 0, 0, 0]
    wmode := ln.wmode.getD 0
    dir := ln.dir.getD [1, 0]
    spans := (ln.spans.getD []).map buildSpanInfo }

/-- Block construction, main.py lines 96-130: a block contributes to
`text_blocks` exactly when it has a `"lines"` key. -/
def buildBlockInfo? (b : RawBlock) : Option BlockInfo :=
  match b.lines with
  | some lns =>
      some { bbox := b.bbox.getD [0, 0, 0, 0]
             block_type := "text"
             lines := lns.map buildLineInfo }
  | none => none

/-- Body of the first per-page loop, main.py lines 86-146:
one entry of `pages_text` (`pageIdx` is the 0-based loop index). -/
def processPage (pageIdx : Nat) (pg : RawPage) : Except String PageEntry :=
  match pg.getText with
  | .error msg => .error msg
  | .ok text =>
      match pg.getDict with
      | .error msg => .error msg
      | .ok dict =>
          .ok { page_number := pageIdx + 1
                text := py_strip text
                char_count := text.length
                page_dimensions := { width := pg.width, height := pg.height
                                     rotation := pg.rotation }
                text_blocks := (dict.getD []).filterMap buildBlockInfo? }

/-- The first per-page loop, main.py lines 85-146, run from 0-based page
index `pageIdx`; the first exception aborts the whole loop. -/
def processPages : List RawPage → Nat → Except String (List PageEntry)
  | [], _ => .ok []
  | pg :: rest, pageIdx =>
      match processPage pageIdx pg with
      | .error msg => .error msg
      | .ok e =>
          match processPages rest (pageIdx + 1) with
          | .error msg => .error msg
          | .ok es => .ok (e :: es)

/-- main.py line 156: the image-typed blocks (`block.get("type") == 1`). -/
def image_blocks_of (blocks : List RawBlock) : List RawBlock :=
  blocks.filter (fun b => b.type_ == some 1)

/-- Body of the inner image loop, main.py lines 158-197: one entry of
`images_info` built from catalog tuple `img` at ordinal `imgIndex`, with
`imageBlocks` the image-typed blocks of the page. -/
def buildImgInfo (pageIdx : Nat) (imageBlocks : List RawBlock) (imgIndex : Nat)
    (img : RawImage) : ImgInfo :=
  let base : ImgInfo :=
    { page_number := pageIdx + 1
      image_index := imgIndex
      xref := img.xref
      smask := img.smask
      width := img.width
      height := img.height
      bpc := img.bpc
      colorspace := img.colorspace
      alt := img.alt
      name := img.name
      filter := img.filter
      bbox := [0, 0, 0, 0]
      transform := none
      size_bytes := 0
      actual_width := none
      actual_height := none
      colorspace_details := none }
  let withPos :=
    match imageBlocks[imgIndex]? with
    | some blk =>
        { base with bbox := blk.bbox.getD [0, 0, 0, 0], transform := blk.transform }
    | none => base
  match img.pixmap with
  | .ok pix =>
      if pix.n - pix.alpha < 4 then
        { withPos with
            actual_width := some pix.width
            actual_height := some pix.height
            colorspace_details :=
              some (match pix.colorspace with | some cs => cs | none => "Unknown")
            size_bytes := pix.tobytes_len }
      else withPos
  | .error _ =>
      { withPos with actual_width := some img.width, actual_height := some img.height }

/-- Body of the second per-page loop, main.py lines 150-197: the `images_info`
entries contributed by one page. -/
def processPageImages (pageIdx : Nat) (pg : RawPage) : Except String (List ImgInfo) :=
  match pg.getImages with
  | .error msg => .error msg
  | .ok image_list =>
      match pg.getDict with
      | .error msg => .error msg
      | .ok dict =>
          .ok (image_list.enum.map
            (fun p => buildImgInfo pageIdx (image_blocks_of (dict.getD [])) p.1 p.2))

/-- The second per-page loop, main.py lines 149-197: `images_info`
accumulated across pages in page order. -/
def processImages : List RawPage → Nat → Except String (List ImgInfo)
  | [], _ => .ok []
  | pg :: rest, pageIdx =>
      match processPageImages pageIdx pg with
      | .error msg => .error msg
      | .ok here =>
          match processImages rest (pageIdx + 1) with
          | .error msg => .error msg
          | .ok there => .ok (here ++ there)

/-- main.py line 202: `"\n\n".join([page["text"] for page in pages_text if page["text"]])`. -/
def joinFullText (pages_text : List PageEntry) : String :=
  String.intercalate "\n\n" ((pages_text.filter (fun p => p.text != "")).map (fun p => p.text))

/-- main.py lines 206-214: the `metadata` record of the success result. -/
def mkDocMetadata (d : RawDoc) : DocMetadata :=
  { title := d.metadata.title.getD ""
    author := d.metadata.author.getD ""
    subject := d.metadata.subject.getD ""
    creator := d.metadata.creator.getD ""
    producer := d.metadata.producer.getD ""
    creation_date := d.metadata.creationDate.getD ""
    modification_date := d.metadata.modDate.getD ""
    page_count := d.pages.length }

/-- main.py lines 223-229: the constant `layout_info` record. -/
def layoutInfoValue : LayoutInfo :=
  { has_positioning_data := true
    coordinate_system := "PDF coordinates (bottom-left origin)"
    bbox_format := "[x0, y0, x1, y1] where (x0,y0) is bottom-left, (x1,y1) is top-right"
    font_flags_decoded := true
    color_format := "hex and integer values provided" }

/-- Everything inside the `try` that can raise after the document is open:
both per-page loops (main.py lines 85-197).  The later steps (join, record
assembly) cannot raise. -/
def extractBody (d : RawDoc) : Except String (List PageEntry × List ImgInfo) :=
  match processPages d.pages 0 with
  | .error msg => .error msg
  | .ok pages_text =>
      match processImages d.pages 0 with
      | .error msg => .error msg
      | .ok images_info => .ok (pages_text, images_info)

/-- main.py lines 202-230: the success dictionary. -/
def assembleSuccess (d : RawDoc) (pages_text : List PageEntry)
    (images_info : List ImgInfo) : ExtractionResult :=
  let full_text := joinFullText pages_text
  { success := true
    error := none
    metadata := some (mkDocMetadata d)
    content := some { full_text := full_text
                      pages := pages_text
                      total_chars := full_text.length
                      images_count := images_info.length }
    images := some images_info
    layout_info := some layoutInfoValue }

/-- main.py lines 232-237: the failure dictionary built by the `except`
handler from the exception message. -/
def mkFailure (msg : String) : ExtractionResult :=
  { success := false
    error := some ("Failed to process PDF: " ++ msg)
    metadata := none
    content := none
    images := none
    layout_info := none }

/-- `extract_pdf_content` (main.py lines 66-237) instrumented with resource
tracking: the second component records whether `doc.close()` (main.py
line 199) was executed before the function returned.  The input stands for
the outcome of `fitz.open("pdf", pdf_bytes)` on the given byte buffer:
`.error msg` when opening raised, `.ok d` when it produced document `d`.
`doc.close()` sits after both loops and before the `return`, so it runs
exactly when no step of `extractBody` raised; the `except` handler
(lines 232-237) does not close the document. -/
def extractRun (input : Except String RawDoc) : ExtractionResult × Bool :=
  match input with
  | .error msg => (mkFailure msg, false)
  | .ok d =>
      match extractBody d with
      | .error msg => (mkFailure msg, false)
      | .ok (pages_text, images_info) => (assembleSuccess d pages_text images_info, true)

/-- `PDFProcessor.extract_pdf_content` (main.py lines 66-237). -/
def extract_pdf_content (input : Except String RawDoc) : ExtractionResult :=
  (extractRun input).1

/-! ## Bit-level helper lemmas -/

theorem int_two_pow_ofNat (i : Nat) : ((2 : Int) ^ i) = Int.ofNat (2 ^ i) := by
  rw [Int.ofNat_eq_coe]
  push_cast
  ring

theorem land_two_pow_bne_eq_testBit (x : Int) (i : Nat) :
    (Int.land x ((2 : Int) ^ i) != 0) = x.testBit i := by
  rw [int_two_pow_ofNat]
  cases x with
  | ofNat m =>
      show ((Int.ofNat (m &&& 2 ^ i)) != 0) = Nat.testBit m i
      rw [Nat.and_two_pow]
      cases hb : Nat.testBit m i <;>
        simp [bne_iff_ne, Int.ofNat_eq_coe, Nat.pos_pow_of_pos]
  | negSucc m =>
      show ((Int.ofNat (Nat.ldiff (2 ^ i) m)) != 0) = !(Nat.testBit m i)
      have hld : Nat.ldiff (2 ^ i) m = if Nat.testBit m i then 0 else 2 ^ i := by
        apply Nat.eq_of_testBit_eq
        intro j
        rw [Nat.testBit_ldiff]
        by_cases hij : i = j
        · subst hij
          cases hm : Nat.testBit m i <;> simp [hm, Nat.testBit_two_pow]
        · cases hm : Nat.testBit m i <;>
            simp [Nat.testBit_two_pow, hij, hm]
      rw [hld]
      cases hm : Nat.testBit m i <;>
        simp [hm, bne_iff_ne, Int.ofNat_eq_coe, Nat.pos_pow_of_pos]

theorem testBit_lor_two_pow_ne (f : Int) (k i : Nat) (h : i ≠ k) :
    (Int.lor f ((2 : Int) ^ k)).testBit i = f.testBit i := by
  rw [int_two_pow_ofNat, Int.testBit_lor]
  have hz : Int.testBit (Int.ofNat (2 ^ k)) i = false := by
    show Nat.testBit (2 ^ k) i = false
    rw [Nat.testBit_two_pow]
    simp [Ne.symm h]
  rw [hz, Bool.or_false]

theorem and_255_eq_mod (n : Nat) : n &&& 255 = n % 256 := by
  have h := Nat.and_pow_two_sub_one_eq_mod n 8
  norm_num at h
  exact h

/-! ## Helper lemmas about `py_strip` and the pipeline -/

/-- The first character of the list satisfies `p` (false for the empty list). -/
def firstSat (p : Char → Bool) : List Char → Bool
  | [] => false
  | c :: _ => p c

/-- The string starts or ends with a whitespace character. -/
def has_outer_ws (s : String) : Bool :=
  firstSat Char.isWhitespace s.data || firstSat Char.isWhitespace s.data.reverse

theorem length_dropWhile_lt_iff (p : Char → Bool) (l : List Char) :
    ((l.dropWhile p).length < l.length) ↔ firstSat p l = true := by
  cases l with
  | nil => simp [firstSat]
  | cons c cs =>
      by_cases hc : p c
      · have hle := (List.dropWhile_sublist (l := cs) (p := p)).length_le
        simp only [List.dropWhile_cons, hc, if_true, firstSat, List.length_cons]
        constructor
        · intro _; trivial
        · intro _; omega
      · simp [List.dropWhile_cons, hc, firstSat]

theorem dropWhile_of_firstSat_false (p : Char → Bool) (l : List Char)
    (h : firstSat p l = false) : l.dropWhile p = l := by
  cases l with
  | nil => rfl
  | cons c cs =>
      simp only [firstSat] at h
      simp [List.dropWhile_cons, h]

theorem py_strip_length_le (s : String) : (py_strip s).length ≤ s.length := by
  show (((s.data.dropWhile Char.isWhitespace).reverse.dropWhile
      Char.isWhitespace).reverse).length ≤ s.data.length
  rw [List.length_reverse]
  calc ((s.data.dropWhile Char.isWhitespace).reverse.dropWhile
      Char.isWhitespace).length
      ≤ (s.data.dropWhile Char.isWhitespace).reverse.length :=
        (List.dropWhile_sublist (l := (s.data.dropWhile Char.isWhitespace).reverse)
          (p := Char.isWhitespace)).length_le
    _ = (s.data.dropWhile Char.isWhitespace).length := List.length_reverse _
    _ ≤ s.data.length :=
        (List.dropWhile_sublist (l := s.data) (p := Char.isWhitespace)).length_le

theorem py_strip_length_lt_iff (s : String) :
    ((py_strip s).length < s.length) ↔ has_outer_ws s = true := by
  show ((((s.data.dropWhile Char.isWhitespace).reverse.dropWhile
      Char.isWhitespace).reverse).length < s.data.length) ↔ _
  rw [List.length_reverse]
  unfold has_outer_ws
  by_cases h1 : firstSat Char.isWhitespace s.data
  · have hlt1 : (s.data.dropWhile Char.isWhitespace).length < s.data.length :=
      (length_dropWhile_lt_iff Char.isWhitespace s.data).mpr h1
    have hle2 : ((s.data.dropWhile Char.isWhitespace).reverse.dropWhile
        Char.isWhitespace).length ≤ (s.data.dropWhile Char.isWhitespace).reverse.length :=
      (List.dropWhile_sublist (l := (s.data.dropWhile Char.isWhitespace).reverse)
        (p := Char.isWhitespace)).length_le
    rw [List.length_reverse] at hle2
    simp only [h1, Bool.true_or, iff_true]
    omega
  · have heq1 : s.data.dropWhile Char.isWhitespace = s.data :=
      dropWhile_of_firstSat_false Char.isWhitespace s.data (by simpa using h1)
    have h2 := length_dropWhile_lt_iff Char.isWhitespace s.data.reverse
    rw [List.length_reverse] at h2
    rw [heq1, h2]
    simp [h1]

theorem processPage_ok_elim (pageIdx : Nat) (pg : RawPage) (e : PageEntry)
    (h : processPage pageIdx pg = .ok e) :
    ∃ t dict, pg.getText = .ok t ∧ pg.getDict = .ok dict ∧
      e = { page_number := pageIdx + 1
            text := py_strip t
            char_count := t.length
            page_dimensions := ⟨pg.width, pg.height, pg.rotation⟩
            text_blocks := (dict.getD []).filterMap buildBlockInfo? } := by
  cases ht : pg.getText with
  | error m => simp [processPage, ht] at h
  | ok t =>
      cases hd : pg.getDict with
      | error m => simp [processPage, ht, hd] at h
      | ok dict =>
          simp only [processPage, ht, hd, Except.ok.injEq] at h
          exact ⟨t, dict, rfl, rfl, h.symm⟩

theorem processPages_ok_elim :
    ∀ (ps : List RawPage) (start : Nat) (out : List PageEntry),
      processPages ps start = .ok out →
      out.length = ps.length ∧
      out.map (fun e => e.page_number) = List.range' (start + 1) ps.length ∧
      ∀ e ∈ out, ∃ pg ∈ ps, ∃ pageIdx, processPage pageIdx pg = .ok e := by
  intro ps
  induction ps with
  | nil =>
      intro start out h
      simp only [processPages, Except.ok.injEq] at h
      subst h
      simp [List.range']
  | cons pg rest ih =>
      intro start out h
      cases hpe : processPage start pg with
      | error m => simp [processPages, hpe] at h
      | ok e =>
          cases hr : processPages rest (start + 1) with
          | error m => simp [processPages, hpe, hr] at h
          | ok es =>
              simp only [processPages, hpe, hr, Except.ok.injEq] at h
              subst h
              obtain ⟨hl, hm, hmem⟩ := ih (start + 1) es hr
              have hnum : e.page_number = start + 1 := by
                obtain ⟨t, dict, _, _, he⟩ := processPage_ok_elim start pg e hpe
                rw [he]
              refine ⟨by simp [hl], ?_, ?_⟩
              · simp only [List.map_cons, List.length_cons, List.range'_succ,
                  hnum, hm, hl]
              · intro x hx
                rcases List.mem_cons.mp hx with hx | hx
                · exact ⟨pg, List.mem_cons_self pg rest, start, by rw [← hx] at hpe; exact hpe⟩
                · obtain ⟨pg', hpg', idx, hidx⟩ := hmem x hx
                  exact ⟨pg', List.mem_cons_of_mem pg hpg', idx, hidx⟩

theorem extractBody_ok_elim (d : RawDoc) (pt : List PageEntry) (ii : List ImgInfo)
    (h : extractBody d = .ok (pt, ii)) :
    processPages d.pages 0 = .ok pt ∧ processImages d.pages 0 = .ok ii := by
  cases hp : processPages d.pages 0 with
  | error m => simp [extractBody, hp] at h
  | ok a =>
      cases hi : processImages d.pages 0 with
      | error m => simp [extractBody, hp, hi] at h
      | ok b =>
          simp only [extractBody, hp, hi, Except.ok.injEq, Prod.mk.injEq] at h
          exact ⟨by rw [h.1], by rw [h.2]⟩

theorem extract_ok_eq (d : RawDoc) (pt : List PageEntry) (ii : List ImgInfo)
    (h : extractBody d = .ok (pt, ii)) :
    extract_pdf_content (.ok d) = assembleSuccess d pt ii := by
  simp [extract_pdf_content, extractRun, h]

theorem extract_error_eq (d : RawDoc) (msg : String)
    (h : extractBody d = .error msg) :
    extract_pdf_content (.ok d) = mkFailure msg := by
  simp [extract_pdf_content, extractRun, h]

/-! ## Concrete sample documents (used to witness the claim theorems) -/

/-- `doc.metadata` with every key absent. -/
def emptyMeta : RawMetadata := ⟨none, none, none, none, none, none, none⟩

/-- A page whose `page.get_text()` raises `"boom"`. -/
def badPage : RawPage :=
  { getText := .error "boom", getDict := .ok none, width := 0, height := 0,
    rotation := 0, getImages := .ok [] }

/-- A document that opens fine but fails during text extraction. -/
def badDoc : RawDoc := ⟨emptyMeta, [badPage]⟩

/-- A catalog image whose `fitz.Pixmap` construction raises. -/
def errImg : RawImage :=
  { xref := 9, smask := 0, width := 3, height := 4, bpc := 8,
    colorspace := "DeviceRGB", alt := "", name := "Im0",
    filter := "FlateDecode", pixmap := .error "cannot decode" }

/-- A CMYK catalog image: its pixmap succeeds with `n - alpha = 4`. -/
def cmykImg : RawImage :=
  { xref := 7, smask := 0, width := 10, height := 12, bpc := 8,
    colorspace := "DeviceCMYK", alt := "", name := "Im1",
    filter := "DCTDecode",
    pixmap := .ok { n := 4, alpha := 0, width := 10, height := 12,
                    colorspace := some "DeviceCMYK", tobytes_len := 480 } }

/-- A page carrying only the CMYK image. -/
def cmykPage : RawPage :=
  { getText := .ok "x", getDict := .ok (some []), width := 612, height := 792,
    rotation := 0, getImages := .ok [cmykImg] }

/-- A document whose only image is CMYK. -/
def cmykDoc : RawDoc := ⟨emptyMeta, [cmykPage]⟩

/-- An image-typed block (`type == 1`). -/
def imgBlock : RawBlock :=
  { type_ := some 1, bbox := some [10, 20, 110, 220],
    transform := some [100, 0, 0, 200, 10, 20], lines := none }

/-- A text block with one line of one span. -/
def textBlock : RawBlock :=
  { type_ := some 0, bbox := some [0, 0, 50, 10], transform := none,
    lines := some [{ bbox := some [0, 0, 50, 10], wmode := none, dir := none,
                     spans := some [{ bbox := none, text := some "Hello",
                                      font := some "F1", size := some 11,
                                      flags := some 20, color := some 0xFF0000,
                                      ascender := none, descender := none,
                                      origin := none }] }] }

/-- A page with text `"  Hello  "`, one text block, one image block and one
catalog image whose pixmap fails. -/
def pageA : RawPage :=
  { getText := .ok "  Hello  ", getDict := .ok (some [textBlock, imgBlock]),
    width := 612, height := 792, rotation := 0, getImages := .ok [errImg] }

/-- A page whose raw text trims to the empty string. -/
def pageB : RawPage :=
  { getText := .ok "\n\n", getDict := .ok none, width := 612, height := 792,
    rotation := 90, getImages := .ok [] }

/-- A two-page document that extracts successfully. -/
def smallDoc : RawDoc := ⟨emptyMeta, [pageA, pageB]⟩

/-! ## Claim theorems -/

/-- C4: `decode_font_flags` is total on the integers and returns the five
booleans determined by bits 0-4 of its argument (superscript, italic,
serifed, monospaced, bold in bit order); setting any bit `k ≥ 5` does not
change the result; `decode_font_flags 0` is all-false, `decode_font_flags 16`
is bold-only, and `decode_font_flags 31` is all-true. -/
theorem decode_font_flags_spec :
    (∀ f : Int,
      (decode_font_flags f).superscript = f.testBit 0 ∧
      (decode_font_flags f).italic = f.testBit 1 ∧
      (decode_font_flags f).serifed = f.testBit 2 ∧
      (decode_font_flags f).monospaced = f.testBit 3 ∧
      (decode_font_flags f).bold = f.testBit 4) ∧
    (∀ (f : Int) (k : Nat), 5 ≤ k →
      decode_font_flags (Int.lor f ((2 : Int) ^ k)) = decode_font_flags f) ∧
    decode_font_flags 0 = ⟨false, false, false, false, false⟩ ∧
    decode_font_flags 16 = ⟨false, false, false, false, true⟩ ∧
    decode_font_flags 31 = ⟨true, true, true, true, true⟩ := by
  refine ⟨?_, ?_, ?_, ?_, ?_⟩
  · intro f
    exact ⟨land_two_pow_bne_eq_testBit f 0, land_two_pow_bne_eq_testBit f 1,
      land_two_pow_bne_eq_testBit f 2, land_two_pow_bne_eq_testBit f 3,
      land_two_pow_bne_eq_testBit f 4⟩
  · intro f k hk
    simp only [decode_font_flags, FontProps.mk.injEq]
    refine ⟨?_, ?_, ?_, ?_, ?_⟩ <;>
      rw [land_two_pow_bne_eq_testBit, land_two_pow_bne_eq_testBit,
        testBit_lor_two_pow_ne _ _ _ (by omega)]
  · decide
  · decide
  · decide

/-- Witness for C4 at a concrete input: bit 6 has no effect on flags 16. -/
theorem decode_font_flags_spec_witness :
    5 ≤ 6 ∧ decode_font_flags (Int.lor 16 ((2 : Int) ^ 6)) = decode_font_flags 16 :=
  ⟨by omega, decode_font_flags_spec.2.1 16 6 (by omega)⟩

/-- C5: `color_to_hex` is total on the naturals, maps 0 to `"#000000"`,
always produces exactly 7 characters (a leading `#` and three two-digit
lowercase hex channels: red = bits 16-23, green = bits 8-15, blue =
bits 0-7), truncates inputs above `0xFFFFFF` to their low 24 bits, and
maps `0xFFFFFF` to `"#ffffff"` and `0xFF0000` to `"#ff0000"`. -/
theorem color_to_hex_spec :
    color_to_hex 0 = "#000000" ∧
    color_to_hex 0xFFFFFF = "#ffffff" ∧
    color_to_hex 0xFF0000 = "#ff0000" ∧
    (∀ n : Nat, n < 256 →
      ((format02x n).data.all (fun ch => "0123456789abcdef".data.contains ch)) = true) ∧
    (∀ c : Nat, (color_to_hex c).length = 7) ∧
    (∀ c : Nat, color_to_hex c = color_to_hex (c % 2 ^ 24)) ∧
    (∀ c : Nat, c ≠ 0 →
      color_to_hex c =
        "#" ++ format02x (c / 2 ^ 16 % 2 ^ 8) ++ format02x (c / 2 ^ 8 % 2 ^ 8) ++
          format02x (c % 2 ^ 8)) := by
  have hchan : ∀ c : Nat, ¬c = 0 →
      color_to_hex c =
        "#" ++ format02x (c / 2 ^ 16 % 2 ^ 8) ++ format02x (c / 2 ^ 8 % 2 ^ 8) ++
          format02x (c % 2 ^ 8) := by
    intro c hc
    unfold color_to_hex
    rw [if_neg hc, Nat.shiftRight_eq_div_pow, Nat.shiftRight_eq_div_pow,
      and_255_eq_mod, and_255_eq_mod, and_255_eq_mod]
    norm_num
  refine ⟨by decide, by decide, by decide, by decide, ?_, ?_, hchan⟩
  · intro c
    by_cases hc : c = 0
    · subst hc; decide
    · rw [hchan c hc]
      show ("#".data ++ ((format02x _).data ++ ((format02x _).data ++ (format02x _).data))).length = 7
      simp [format02x]
  · intro c
    by_cases hc : c = 0
    · subst hc; decide
    · by_cases hm : c % 2 ^ 24 = 0
      · rw [hchan c hc, hm]
        have h16 : c / 2 ^ 16 % 2 ^ 8 = 0 := by omega
        have h8 : c / 2 ^ 8 % 2 ^ 8 = 0 := by omega
        have h0 : c % 2 ^ 8 = 0 := by omega
        rw [h16, h8, h0]
        decide
      · rw [hchan c hc, hchan (c % 2 ^ 24) hm]
        have h16 : c / 2 ^ 16 % 2 ^ 8 = c % 2 ^ 24 / 2 ^ 16 % 2 ^ 8 := by omega
        have h8 : c / 2 ^ 8 % 2 ^ 8 = c % 2 ^ 24 / 2 ^ 8 % 2 ^ 8 := by omega
        have h0 : c % 2 ^ 8 = c % 2 ^ 24 % 2 ^ 8 := by omega
        rw [h16, h8, h0]

/-- Witness for C5 at a concrete input: the channel decomposition at
`0xABCDEF`. -/
theorem color_to_hex_spec_witness :
    (0xABCDEF : Nat) ≠ 0 ∧
    color_to_hex 0xABCDEF =
      "#" ++ format02x (0xABCDEF / 2 ^ 16 % 2 ^ 8) ++ format02x (0xABCDEF / 2 ^ 8 % 2 ^ 8) ++
        format02x (0xABCDEF % 2 ^ 8) :=
  ⟨by decide, color_to_hex_spec.2.2.2.2.2.2 0xABCDEF (by decide)⟩

/-- C1: `extract_pdf_content` is a total function of the decoder outcome:
when opening raises it returns the failure record, when any extraction step
raises it returns the failure record, and every result is either the success
variant or the failure variant whose error string is exactly
`"Failed to process PDF: " ++ msg` (hence non-empty) with no metadata,
content, image or layout fields. -/
theorem extract_failure_shape :
    (∀ msg : String, extract_pdf_content (.error msg) =
      { success := false, error := some ("Failed to process PDF: " ++ msg),
        metadata := none, content := none, images := none, layout_info := none }) ∧
    (∀ (d : RawDoc) (msg : String), extractBody d = .error msg →
      extract_pdf_content (.ok d) =
        { success := false, error := some ("Failed to process PDF: " ++ msg),
          metadata := none, content := none, images := none, layout_info := none }) ∧
    (∀ input : Except String RawDoc,
      (extract_pdf_content input).success = true ∨
      ∃ msg : String,
        (extract_pdf_content input).error = some ("Failed to process PDF: " ++ msg) ∧
        0 < ("Failed to process PDF: " ++ msg).length ∧
        (extract_pdf_content input).success = false ∧
        (extract_pdf_content input).metadata = none ∧
        (extract_pdf_content input).content = none ∧
        (extract_pdf_content input).images = none ∧
        (extract_pdf_content input).layout_info = none) := by
  have hlen : ∀ msg : String, 0 < ("Failed to process PDF: " ++ msg).length := by
    intro msg
    rw [String.length_append]
    have : 0 < "Failed to process PDF: ".length := by decide
    omega
  refine ⟨fun msg => rfl, ?_, ?_⟩
  · intro d msg h
    simp [extract_pdf_content, extractRun, h, mkFailure]
  · intro input
    match input with
    | .error msg => exact Or.inr ⟨msg, rfl, hlen msg, rfl, rfl, rfl, rfl, rfl⟩
    | .ok d =>
        match hb : extractBody d with
        | .error msg =>
            refine Or.inr ⟨msg, ?_, hlen msg, ?_, ?_, ?_, ?_, ?_⟩ <;>
              simp [extract_pdf_content, extractRun, hb, mkFailure]
        | .ok (pages_text, images_info) =>
            refine Or.inl ?_
            simp [extract_pdf_content, extractRun, hb, assembleSuccess]

/-- Witness for C1 at a concrete input: a document whose first page's
`get_text()` raises `"boom"` yields exactly the failure record. -/
theorem extract_failure_shape_witness :
    extract_pdf_content (.ok badDoc) =
      { success := false, error := some ("Failed to process PDF: " ++ "boom"),
        metadata := none, content := none, images := none, layout_info := none } :=
  extract_failure_shape.2.1 badDoc "boom" rfl

/-- C2 (evidence of the code bug): `badDoc` opens successfully, its first
page's `get_text()` raises, the function returns the failure record — and
`doc.close()` (main.py line 199) was never executed, because the `except`
handler closes nothing; on the success path (`smallDoc`) the close does run.
The claim that the handle is closed on both paths is therefore false of the
code. -/
theorem close_skipped_on_failure_path :
    extractRun (.ok badDoc) = (mkFailure "boom", false) ∧
    (extractRun (.ok smallDoc)).2 = true :=
  ⟨rfl, rfl⟩

/-- C3 counterexample: on `cmykDoc` extraction succeeds, yet its single image
descriptor (pixmap succeeded with `n - alpha = 4`) carries no
`actual_width`/`actual_height` key at all — refuting "every ImageDescriptor
has actual_width and actual_height fields". -/
theorem image_actual_size_counterexample :
    (extract_pdf_content (.ok cmykDoc)).success = true ∧
    ((extract_pdf_content (.ok cmykDoc)).images.getD []).map
      (fun i => (i.actual_width, i.actual_height)) = [(none, none)] :=
  ⟨rfl, rfl⟩

/-- C3 (amended): when the pixmap raises, `actual_width`/`actual_height` fall
back to the catalog-declared dimensions and `size_bytes`/`colorspace_details`
keep their zero/absent defaults; when the pixmap succeeds with fewer than 4
non-alpha components, they come from the pixel buffer together with
`size_bytes` and the colorspace name; when the pixmap succeeds with 4 or more
non-alpha components, the keys stay absent; and a page's image pass never
fails once `get_images()` and `get_text("dict")` have succeeded, whatever the
pixmap outcomes. -/
theorem image_actual_size_amended :
    (∀ (pageIdx : Nat) (imageBlocks : List RawBlock) (imgIndex : Nat)
        (img : RawImage) (msg : String), img.pixmap = .error msg →
      (buildImgInfo pageIdx imageBlocks imgIndex img).actual_width = some img.width ∧
      (buildImgInfo pageIdx imageBlocks imgIndex img).actual_height = some img.height ∧
      (buildImgInfo pageIdx imageBlocks imgIndex img).size_bytes = 0 ∧
      (buildImgInfo pageIdx imageBlocks imgIndex img).colorspace_details = none) ∧
    (∀ (pageIdx : Nat) (imageBlocks : List RawBlock) (imgIndex : Nat)
        (img : RawImage) (pix : Pix), img.pixmap = .ok pix → pix.n - pix.alpha < 4 →
      (buildImgInfo pageIdx imageBlocks imgIndex img).actual_width = some pix.width ∧
      (buildImgInfo pageIdx imageBlocks imgIndex img).actual_height = some pix.height ∧
      (buildImgInfo pageIdx imageBlocks imgIndex img).size_bytes = pix.tobytes_len ∧
      (buildImgInfo pageIdx imageBlocks imgIndex img).colorspace_details =
        some (match pix.colorspace with | some cs => cs | none => "Unknown")) ∧
    (∀ (pageIdx : Nat) (imageBlocks : List RawBlock) (imgIndex : Nat)
        (img : RawImage) (pix : Pix), img.pixmap = .ok pix → ¬pix.n - pix.alpha < 4 →
      (buildImgInfo pageIdx imageBlocks imgIndex img).actual_width = none ∧
      (buildImgInfo pageIdx imageBlocks imgIndex img).actual_height = none ∧
      (buildImgInfo pageIdx imageBlocks imgIndex img).size_bytes = 0 ∧
      (buildImgInfo pageIdx imageBlocks imgIndex img).colorspace_details = none) ∧
    (∀ (pageIdx : Nat) (pg : RawPage) (imgs : List RawImage)
        (dict : Option (List RawBlock)),
      pg.getImages = .ok imgs → pg.getDict = .ok dict →
      ∃ out, processPageImages pageIdx pg = .ok out) := by
  refine ⟨?_, ?_, ?_, ?_⟩
  · intro pageIdx imageBlocks imgIndex img msg h
    cases hpos : imageBlocks[imgIndex]? <;>
      simp [buildImgInfo, h, hpos]
  · intro pageIdx imageBlocks imgIndex img pix h hn
    cases hpos : imageBlocks[imgIndex]? <;>
      simp [buildImgInfo, h, hpos, hn]
  · intro pageIdx imageBlocks imgIndex img pix h hn
    cases hpos : imageBlocks[imgIndex]? <;>
      simp [buildImgInfo, h, hpos, hn]
  · intro pageIdx pg imgs dict h1 h2
    refine ⟨imgs.enum.map
      (fun p => buildImgInfo pageIdx (image_blocks_of (dict.getD [])) p.1 p.2), ?_⟩
    simp only [processPageImages, h1, h2]

/-- Witness for C3 (amended) at a concrete input: the failing-pixmap case on
`errImg`. -/
theorem image_actual_size_amended_witness :
    errImg.pixmap = .error "cannot decode" ∧
    ((buildImgInfo 0 [] 0 errImg).actual_width = some errImg.width ∧
     (buildImgInfo 0 [] 0 errImg).actual_height = some errImg.height ∧
     (buildImgInfo 0 [] 0 errImg).size_bytes = 0 ∧
     (buildImgInfo 0 [] 0 errImg).colorspace_details = none) :=
  ⟨rfl, image_actual_size_amended.1 0 [] 0 errImg "cannot decode" rfl⟩

/-- C6: for every document that decodes successfully with N pages, the
success result's `content.pages` has exactly N entries whose `page_number`
fields are `1, 2, ..., N` in order, and `metadata.page_count` is N. -/
theorem pages_indexing (d : RawDoc)
    (h : (extract_pdf_content (.ok d)).success = true) :
    (extract_pdf_content (.ok d)).content.map (fun c => c.pages.length) =
      some d.pages.length ∧
    (extract_pdf_content (.ok d)).content.map
      (fun c => c.pages.map (fun e => e.page_number)) =
      some (List.range' 1 d.pages.length) ∧
    (extract_pdf_content (.ok d)).metadata.map (fun m => m.page_count) =
      some d.pages.length := by
  cases hb : extractBody d with
  | error msg =>
      rw [extract_error_eq d msg hb] at h
      simp [mkFailure] at h
  | ok pr =>
      obtain ⟨pt, ii⟩ := pr
      obtain ⟨hpt, _⟩ := extractBody_ok_elim d pt ii hb
      obtain ⟨hl, hm, _⟩ := processPages_ok_elim d.pages 0 pt hpt
      rw [extract_ok_eq d pt ii hb]
      simp [assembleSuccess, mkDocMetadata, hl, hm]

/-- Witness for C6 at a concrete input: the two-page `smallDoc`. -/
theorem pages_indexing_witness :
    (extract_pdf_content (.ok smallDoc)).success = true ∧
    ((extract_pdf_content (.ok smallDoc)).content.map (fun c => c.pages.length) =
        some smallDoc.pages.length ∧
     (extract_pdf_content (.ok smallDoc)).content.map
        (fun c => c.pages.map (fun e => e.page_number)) =
        some (List.range' 1 smallDoc.pages.length) ∧
     (extract_pdf_content (.ok smallDoc)).metadata.map (fun m => m.page_count) =
        some smallDoc.pages.length) :=
  ⟨rfl, pages_indexing smallDoc rfl⟩

/-- C7: in every success result, `content.full_text` is the per-page trimmed
texts of exactly the pages whose trimmed text is non-empty, in page order,
joined by a blank line; empty pages contribute neither a segment nor a
separator. -/
theorem full_text_join (d : RawDoc)
    (h : (extract_pdf_content (.ok d)).success = true) :
    (extract_pdf_content (.ok d)).content.map (fun c => c.full_text) =
      (extract_pdf_content (.ok d)).content.map (fun c =>
        String.intercalate "\n\n"
          ((c.pages.map (fun e => e.text)).filter (fun t => t != ""))) := by
  cases hb : extractBody d with
  | error msg =>
      rw [extract_error_eq d msg hb] at h
      simp [mkFailure] at h
  | ok pr =>
      obtain ⟨pt, ii⟩ := pr
      have hj : joinFullText pt =
          String.intercalate "\n\n"
            ((pt.map (fun e => e.text)).filter (fun t => t != "")) := by
        unfold joinFullText
        rw [List.filter_map (fun e : PageEntry => e.text) (l := pt)
          (p := fun t => t != "")]
        rfl
      rw [extract_ok_eq d pt ii hb]
      show some (joinFullText pt) =
        some (String.intercalate "\n\n"
          ((pt.map (fun e => e.text)).filter (fun t => t != "")))
      rw [hj]

/-- Witness for C7 at a concrete input: `smallDoc`, whose second page trims
to the empty string and contributes nothing. -/
theorem full_text_join_witness :
    (extract_pdf_content (.ok smallDoc)).success = true ∧
    (extract_pdf_content (.ok smallDoc)).content.map (fun c => c.full_text) =
      (extract_pdf_content (.ok smallDoc)).content.map (fun c =>
        String.intercalate "\n\n"
          ((c.pages.map (fun e => e.text)).filter (fun t => t != ""))) :=
  ⟨rfl, full_text_join smallDoc rfl⟩

/-- C8: every page entry of a success result is built by `processPage`, and
for such an entry the `text` field is the whitespace-trimmed raw page text
while `char_count` is the length of the untrimmed raw text; hence
`char_count ≥ text.length`, strictly exactly when the raw text starts or
ends with whitespace. -/
theorem char_count_untrimmed :
    (∀ (pageIdx : Nat) (pg : RawPage) (e : PageEntry) (t : String),
      processPage pageIdx pg = .ok e → pg.getText = .ok t →
      e.text = py_strip t ∧ e.char_count = t.length ∧
      e.text.length ≤ e.char_count ∧
      (e.text.length < e.char_count ↔ has_outer_ws t = true)) ∧
    (∀ (d : RawDoc) (c : Content),
      (extract_pdf_content (.ok d)).content = some c →
      ∀ e ∈ c.pages, ∃ pg ∈ d.pages, ∃ pageIdx, processPage pageIdx pg = .ok e) := by
  constructor
  · intro pageIdx pg e t h ht
    obtain ⟨t', dict, ht', _, he⟩ := processPage_ok_elim pageIdx pg e h
    rw [ht] at ht'
    injection ht' with ht'
    subst ht'
    subst he
    exact ⟨rfl, rfl, py_strip_length_le t, py_strip_length_lt_iff t⟩
  · intro d c hc e he
    cases hb : extractBody d with
    | error msg =>
        rw [extract_error_eq d msg hb] at hc
        simp [mkFailure] at hc
    | ok pr =>
        obtain ⟨pt, ii⟩ := pr
        rw [extract_ok_eq d pt ii hb] at hc
        simp only [assembleSuccess, Option.some.injEq] at hc
        obtain ⟨hpt, _⟩ := extractBody_ok_elim d pt ii hb
        obtain ⟨_, _, hmem⟩ := processPages_ok_elim d.pages 0 pt hpt
        apply hmem
        have hpages : c.pages = pt := by rw [← hc]
        rw [← hpages]
        exact he

/-- The page entry `processPage` produces for `pageB`. -/
def pageBEntry : PageEntry :=
  { page_number := 2, text := "", char_count := 2,
    page_dimensions := ⟨612, 792, 90⟩, text_blocks := [] }

/-- Witness for C8 at a concrete input: `pageB`, whose raw text `"\n\n"`
trims to the empty string. -/
theorem char_count_untrimmed_witness :
    processPage 1 pageB = .ok pageBEntry ∧ pageB.getText = .ok "\n\n" ∧
    (pageBEntry.text = py_strip "\n\n" ∧
     pageBEntry.char_count = ("\n\n" : String).length ∧
     pageBEntry.text.length ≤ pageBEntry.char_count ∧
     (pageBEntry.text.length < pageBEntry.char_count ↔ has_outer_ws "\n\n" = true)) :=
  ⟨rfl, rfl, char_count_untrimmed.1 1 pageB pageBEntry "\n\n" rfl rfl⟩

/-- C9: the image pass of a page maps `buildImgInfo` over the enumerated
image catalog with the page's image-typed blocks; a descriptor whose ordinal
index has an image-typed block at the same index copies that block's bbox
(defaulting to `[0,0,0,0]` when the block has no bbox) and transform, and a
descriptor whose ordinal index is at or beyond the number of image-typed
blocks keeps bbox `[0,0,0,0]` and transform `null`. -/
theorem image_positional_tiebreak :
    (∀ (pageIdx : Nat) (pg : RawPage) (imgs : List RawImage)
        (dict : Option (List RawBlock)),
      pg.getImages = .ok imgs → pg.getDict = .ok dict →
      processPageImages pageIdx pg = .ok (imgs.enum.map
        (fun p => buildImgInfo pageIdx (image_blocks_of (dict.getD [])) p.1 p.2))) ∧
    (∀ (pageIdx : Nat) (blocks : List RawBlock) (j : Nat) (img : RawImage),
      ((image_blocks_of blocks).length ≤ j →
        (buildImgInfo pageIdx (image_blocks_of blocks) j img).bbox = [0, 0, 0, 0] ∧
        (buildImgInfo pageIdx (image_blocks_of blocks) j img).transform = none) ∧
      (∀ blk, (image_blocks_of blocks)[j]? = some blk →
        (buildImgInfo pageIdx (image_blocks_of blocks) j img).bbox =
          blk.bbox.getD [0, 0, 0, 0] ∧
        (buildImgInfo pageIdx (image_blocks_of blocks) j img).transform =
          blk.transform)) := by
  constructor
  · intro pageIdx pg imgs dict h1 h2
    simp [processPageImages, h1, h2]
  · intro pageIdx blocks j img
    constructor
    · intro hj
      have hnone : (image_blocks_of blocks)[j]? = none := by
        rw [List.getElem?_eq_none_iff]
        exact hj
      cases hpix : img.pixmap with
      | ok pix =>
          by_cases hn : pix.n - pix.alpha < 4 <;>
            simp [buildImgInfo, hnone, hpix, hn]
      | error m => simp [buildImgInfo, hnone, hpix]
    · intro blk hblk
      cases hpix : img.pixmap with
      | ok pix =>
          by_cases hn : pix.n - pix.alpha < 4 <;>
            simp [buildImgInfo, hblk, hpix, hn]
      | error m => simp [buildImgInfo, hblk, hpix]

/-- Witness for C9 at a concrete input: on the block list
`[textBlock, imgBlock]` only `imgBlock` is image-typed, and the descriptor at
ordinal 0 copies its bbox and transform. -/
theorem image_positional_tiebreak_witness :
    (image_blocks_of [textBlock, imgBlock])[0]? = some imgBlock ∧
    ((buildImgInfo 0 (image_blocks_of [textBlock, imgBlock]) 0 errImg).bbox =
       imgBlock.bbox.getD [0, 0, 0, 0] ∧
     (buildImgInfo 0 (image_blocks_of [textBlock, imgBlock]) 0 errImg).transform =
       imgBlock.transform) :=
  ⟨rfl, (image_positional_tiebreak.2 0 [textBlock, imgBlock] 0 errImg).2 imgBlock rfl⟩

/-- C10: in every result carrying content and images (i.e. every success
result), `content.total_chars` is the length of `content.full_text` and
`content.images_count` is the number of entries of the top-level images
list. -/
theorem derived_counts (input : Except String RawDoc) (c : Content)
    (imgs : List ImgInfo)
    (hc : (extract_pdf_content input).content = some c)
    (hi : (extract_pdf_content input).images = some imgs) :
    c.total_chars = c.full_text.length ∧ c.images_count = imgs.length := by
  match input with
  | .error msg => simp [extract_pdf_content, extractRun, mkFailure] at hc
  | .ok d =>
      cases hb : extractBody d with
      | error m =>
          rw [extract_error_eq d m hb] at hc
          simp [mkFailure] at hc
      | ok pr =>
          obtain ⟨pt, ii⟩ := pr
          rw [extract_ok_eq d pt ii hb] at hc hi
          simp only [assembleSuccess, Option.some.injEq] at hc hi
          subst hc
          subst hi
          exact ⟨rfl, rfl⟩

/-- The descriptor `extract_pdf_content` builds for `cmykImg`. -/
def cmykInfo : ImgInfo :=
  { page_number := 1, image_index := 0, xref := 7, smask := 0, width := 10,
    height := 12, bpc := 8, colorspace := "DeviceCMYK", alt := "", name := "Im1",
    filter := "DCTDecode", bbox := [0, 0, 0, 0], transform := none,
    size_bytes := 0, actual_width := none, actual_height := none,
    colorspace_details := none }

/-- The content record `extract_pdf_content` builds for `cmykDoc`. -/
def cmykContent : Content :=
  { full_text := "x"
    pages := [{ page_number := 1, text := "x", char_count := 1,
                page_dimensions := ⟨612, 792, 0⟩, text_blocks := [] }]
    total_chars := 1
    images_count := 1 }

/-- Witness for C10 at a concrete input: `cmykDoc`. -/
theorem derived_counts_witness :
    (extract_pdf_content (.ok cmykDoc)).content = some cmykContent ∧
    (extract_pdf_content (.ok cmykDoc)).images = some [cmykInfo] ∧
    (cmykContent.total_chars = cmykContent.full_text.length ∧
     cmykContent.images_count = [cmykInfo].length) :=
  ⟨rfl, rfl, derived_counts (.ok cmykDoc) cmykContent [cmykInfo] rfl rfl⟩

end PDFProc
